import Mathlib

/-
  Verification of the cognitive-radio SpectrumManager module (module-CR-ns3).

  The repository ships the declaration header src/model/spectrum-manager.h;
  the method bodies live outside the inspected tree, so every operation below
  is modelled from the specification document, faithful to its words.
  Durations and the random draw are rationals; the probabilistic draw and the
  PU-model ground truth are passed explicitly as parameters, making every
  operation a pure function on an explicit state record.
-/

/-- Modelled from the spec: the observable side effects the Manager requests
from its collaborators (shared repository write, physical-layer driver calls,
timer arming), recorded in emission order.  The implementation of these
collaborator calls is not under src/. -/
inductive SpectrumAction where
  | repositoryWrite (nodeId : Int) (channel : Nat)
  | phySwitchChannel (channel : Nat)
  | armHandoffTimer
  | phyBeginTx
  | armTransmitTimer
  | phyBeginSensing (channel : Nat)
  | armSenseTimer
  deriving DecidableEq, Repr

/-- Modelled from the spec (data model, section 3): the SpectrumManager state
record declared in src/model/spectrum-manager.h lines 145-176 (m_senseTime,
m_transmitTime, m_isPuOn, m_isSensing, m_isSwitching, m_nodeId); the
constructor and method bodies are not under src/. -/
structure SpectrumManager where
  senseTime : ℚ
  transmitTime : ℚ
  misdetectionProb : ℚ
  isPuOn : Bool
  isSensing : Bool
  isSwitching : Bool
  nodeId : Int
  currentChannel : Nat
  deriving DecidableEq, Repr

namespace SpectrumManager

/-- Modelled from the spec: the interface-only constructor
SpectrumManager(mac, id) — intervals defaulted, stopped state (Idle: both
flags false) until Start(); body not under src/.  The spec gives no default
interval values, so 0 is used; no claim depends on them. -/
def ctorInterfaceOnly (id : Int) : SpectrumManager :=
  { senseTime := 0, transmitTime := 0, misdetectionProb := 0,
    isPuOn := false, isSensing := false, isSwitching := false,
    nodeId := id, currentChannel := 0 }

/-- Modelled from the spec: the fully parameterized constructor
SpectrumManager(mac, phy, id, sense_time, transmit_time); body not under
src/.  Section 7 requires negative durations to be rejected at configuration
time, so the constructor yields none on invalid input and otherwise the
stopped (Idle) state. -/
def ctorFull (id : Int) (sense_time transmit_time : ℚ) : Option SpectrumManager :=
  if sense_time < 0 ∨ transmit_time < 0 then none
  else some { senseTime := sense_time, transmitTime := transmit_time,
              misdetectionProb := 0, isPuOn := false, isSensing := false,
              isSwitching := false, nodeId := id, currentChannel := 0 }

/-- Modelled from the spec: SetPuModel(prob, model); body not under src/.
Section 7 requires a misdetection probability outside the interval from 0 to
1 to be rejected at configuration time, so the setter yields none on invalid
input and otherwise stores the probability.  The PU model reference itself is
external; ground truth is passed to each sensing operation explicitly. -/
def SetPuModel (m : SpectrumManager) (prob : ℚ) : Option SpectrumManager :=
  if prob < 0 ∨ 1 < prob then none
  else some { m with misdetectionProb := prob }

/-- Modelled from the spec: the misdetection sampling shared by SenseEnded and
IsPuInterfering — an actually active PU is detected exactly when the fresh
uniform draw is at least the misdetection probability; an absent PU is never
reported (no false positives). -/
def detects (m : SpectrumManager) (actuallyActive : Bool) (draw : ℚ) : Bool :=
  actuallyActive && decide (m.misdetectionProb ≤ draw)

/-- Modelled from the spec: Start() — Idle to Sensing; arms the sense timer
and requests the physical-layer driver begin sensing; body not under src/. -/
def Start (m : SpectrumManager) : SpectrumManager × List SpectrumAction :=
  ({ m with isSensing := true },
   [SpectrumAction.phyBeginSensing m.currentChannel, SpectrumAction.armSenseTimer])

/-- Modelled from the spec: SenseEnded() — exits Sensing; isPuOn is set to
actuallyActive AND (draw at least misdetectionProb).  If a PU was detected the
Manager enters HandingOff: it writes the decision policy's next channel to the
shared repository, then requests the physical-layer channel switch, then arms
the handoff timer.  Otherwise it enters Transmitting: it requests transmission
and arms the transmit timer.  Body not under src/; the fresh draw, the PU
ground truth and the decision policy's chosen channel are explicit inputs. -/
def SenseEnded (m : SpectrumManager) (actuallyActive : Bool) (draw : ℚ)
    (nextChannel : Nat) : SpectrumManager × List SpectrumAction :=
  if detects m actuallyActive draw then
    ({ m with isPuOn := true, isSensing := false, isSwitching := true,
              currentChannel := nextChannel },
     [SpectrumAction.repositoryWrite m.nodeId nextChannel,
      SpectrumAction.phySwitchChannel nextChannel,
      SpectrumAction.armHandoffTimer])
  else
    ({ m with isPuOn := false, isSensing := false, isSwitching := false },
     [SpectrumAction.phyBeginTx, SpectrumAction.armTransmitTimer])

/-- Modelled from the spec: HandoffEnded() — exits HandingOff, clears
isSwitching, re-enters Sensing on the new channel (re-arms the sense timer and
restarts the sensing request); body not under src/. -/
def HandoffEnded (m : SpectrumManager) : SpectrumManager × List SpectrumAction :=
  ({ m with isSwitching := false, isSensing := true },
   [SpectrumAction.phyBeginSensing m.currentChannel, SpectrumAction.armSenseTimer])

/-- Modelled from the spec: TransmitEnded() — exits Transmitting, re-enters
Sensing (re-arms the sense timer); body not under src/. -/
def TransmitEnded (m : SpectrumManager) : SpectrumManager × List SpectrumAction :=
  ({ m with isSensing := true },
   [SpectrumAction.phyBeginSensing m.currentChannel, SpectrumAction.armSenseTimer])

/-- Modelled from the spec: IsChannelAvailable() — true iff neither sensing
nor switching; a side-effect-free query, so the Manager state is returned
unchanged alongside the answer; body not under src/. -/
def IsChannelAvailable (m : SpectrumManager) : Bool × SpectrumManager :=
  ((!m.isSensing && !m.isSwitching), m)

/-- Modelled from the spec: IsPuInterfering(txDuration) — evaluates the PU
model over the queried window (ground truth passed as activeInWindow) subject
to the same misdetection sampling as SenseEnded, with a fresh draw each call;
a pure query, so the Manager state is returned unchanged; body not under
src/. -/
def IsPuInterfering (m : SpectrumManager) (activeInWindow : Bool) (draw : ℚ) :
    Bool × SpectrumManager :=
  (detects m activeInWindow draw, m)

/-- Abstract cycle state of a Manager, derived from the flags as the spec
describes: sensing flag set means Sensing, switching flag set means
HandingOff, both clear means Transmitting (or Idle before the first
Start, which the step relation below never visits). -/
inductive CycleState where
  | Sensing
  | HandingOff
  | Transmitting
  deriving DecidableEq, Repr

/-- The cycle state read off the Manager flags. -/
def cycleState (m : SpectrumManager) : CycleState :=
  if m.isSensing then CycleState.Sensing
  else if m.isSwitching then CycleState.HandingOff
  else CycleState.Transmitting

/-- Modelled from the spec: the step relation generated by the timer-expiry
handlers after Start().  Each handler fires only when its timer is pending,
which the spec ties to the corresponding state: the sense timer fires in
Sensing, the handoff timer in HandingOff, the transmit timer in
Transmitting. -/
inductive Step : SpectrumManager → SpectrumManager → Prop where
  | senseFires (m : SpectrumManager) (active : Bool) (draw : ℚ) (next : Nat) :
      m.isSensing = true → Step m (SenseEnded m active draw next).1
  | handoffFires (m : SpectrumManager) :
      m.isSensing = false → m.isSwitching = true → Step m (HandoffEnded m).1
  | transmitFires (m : SpectrumManager) :
      m.isSensing = false → m.isSwitching = false → Step m (TransmitEnded m).1

/-- Modelled from the spec: the states reachable from either constructor by
the operations Start, SenseEnded, HandoffEnded and TransmitEnded.  Each
operation fires from the source state the spec assigns it (section 4.2);
re-entrant invocations are programming errors that assert (section 7), so
they generate no state. -/
inductive Reachable : SpectrumManager → Prop where
  | ctorSimple (id : Int) : Reachable (ctorInterfaceOnly id)
  | ctorParams (id : Int) (st tt : ℚ) (m : SpectrumManager) :
      ctorFull id st tt = some m → Reachable m
  | startStep (m : SpectrumManager) : Reachable m →
      m.isSensing = false → m.isSwitching = false → Reachable (Start m).1
  | senseStep (m : SpectrumManager) (a : Bool) (d : ℚ) (n : Nat) :
      Reachable m → m.isSensing = true → Reachable (SenseEnded m a d n).1
  | handoffStep (m : SpectrumManager) : Reachable m →
      m.isSwitching = true → Reachable (HandoffEnded m).1
  | transmitStep (m : SpectrumManager) : Reachable m →
      m.isSensing = false → m.isSwitching = false → Reachable (TransmitEnded m).1

end SpectrumManager

/-- Modelled from the spec: the timer subsystem visible to a single Manager
around destruction — whether the Manager object is destroyed and whether its
sense timer is pending. -/
structure TimerSys where
  destroyed : Bool
  sensePending : Bool
  deriving DecidableEq, Repr

/-- Labels for the timer-subsystem events. -/
inductive TLabel where
  | armSense
  | senseFired
  | destructorRun
  deriving DecidableEq, Repr

/-- Modelled from the spec: the timer-subsystem transitions.  A live Manager
may arm its sense timer; a pending sense timer may fire, which invokes
SenseEnded on its target (the senseFired label); the destructor disarms the
pending sense timer while destroying the Manager (the only required
cancellation semantic).  Destructor body not under src/. -/
inductive TStep : TimerSys → TLabel → TimerSys → Prop where
  | arm (s : TimerSys) : s.destroyed = false →
      TStep s TLabel.armSense { destroyed := false, sensePending := true }
  | fire (s : TimerSys) : s.sensePending = true →
      TStep s TLabel.senseFired { s with sensePending := false }
  | destructor (s : TimerSys) :
      TStep s TLabel.destructorRun { destroyed := true, sensePending := false }

/-- Timer-subsystem states reachable from a freshly constructed Manager
(alive, no timer pending). -/
inductive TReach : TimerSys → Prop where
  | init : TReach { destroyed := false, sensePending := false }
  | step (s : TimerSys) (l : TLabel) (s2 : TimerSys) :
      TReach s → TStep s l s2 → TReach s2

namespace SpectrumManager

theorem senseEnded_isPuOn (m : SpectrumManager) (a : Bool) (d : ℚ) (n : Nat) :
    ((SenseEnded m a d n).1).isPuOn = detects m a d := by
  rcases h : detects m a d with _ | _ <;> simp [SenseEnded, h]

theorem senseEnded_isSensing (m : SpectrumManager) (a : Bool) (d : ℚ) (n : Nat) :
    ((SenseEnded m a d n).1).isSensing = false := by
  rcases h : detects m a d with _ | _ <;> simp [SenseEnded, h]

theorem senseEnded_isSwitching (m : SpectrumManager) (a : Bool) (d : ℚ) (n : Nat) :
    ((SenseEnded m a d n).1).isSwitching = detects m a d := by
  rcases h : detects m a d with _ | _ <;> simp [SenseEnded, h]

end SpectrumManager

namespace SpectrumManager

/-- A concrete Manager with misdetection probability 1, used to instantiate
theorems at the full-misdetection extreme. -/
def managerProbOne : SpectrumManager :=
  { ctorInterfaceOnly 0 with misdetectionProb := 1 }

/-- C1: IsChannelAvailable() returns true iff both isSensing and isSwitching
are false (Transmitting, or Idle before the first Start()), and the call
leaves the Manager state unchanged. -/
theorem isChannelAvailable_iff_not_busy (m : SpectrumManager) :
    ((IsChannelAvailable m).1 = true ↔
        (m.isSensing = false ∧ m.isSwitching = false))
    ∧ (IsChannelAvailable m).2 = m := by
  refine ⟨?_, rfl⟩
  simp [IsChannelAvailable]

/-- C2: SenseEnded computes isPuOn = actuallyActive AND (draw at least
misdetectionProb); in particular when the PU is actually absent, isPuOn is
false for every draw (no false positives). -/
theorem senseEnded_detection_formula (m : SpectrumManager) (actuallyActive : Bool)
    (draw : ℚ) (next : Nat) :
    ((SenseEnded m actuallyActive draw next).1).isPuOn
        = (actuallyActive && decide (m.misdetectionProb ≤ draw))
    ∧ (actuallyActive = false →
        ((SenseEnded m actuallyActive draw next).1).isPuOn = false) := by
  constructor
  · exact senseEnded_isPuOn m actuallyActive draw next
  · intro ha
    subst ha
    rw [senseEnded_isPuOn]
    simp [detects]

theorem senseEnded_detection_formula_witness :
    ((SenseEnded (ctorInterfaceOnly 0) false (1/2) 1).1).isPuOn = false :=
  (senseEnded_detection_formula (ctorInterfaceOnly 0) false (1/2) 1).2 rfl

/-- C3: with misdetectionProb = 0 and a nonnegative draw, SenseEnded reports
isPuOn equal to the PU ground truth, independently of the draw. -/
theorem senseEnded_zero_misdetection (m : SpectrumManager) (a : Bool) (d : ℚ)
    (n : Nat) (hp : m.misdetectionProb = 0) (hd : 0 ≤ d) :
    ((SenseEnded m a d n).1).isPuOn = a := by
  rw [senseEnded_isPuOn]
  have hdec : decide (m.misdetectionProb ≤ d) = true := by
    rw [hp]; exact decide_eq_true hd
  simp [detects, hdec]

theorem senseEnded_zero_misdetection_witness :
    ((SenseEnded (ctorInterfaceOnly 0) true 0 1).1).isPuOn = true :=
  senseEnded_zero_misdetection (ctorInterfaceOnly 0) true 0 1 rfl le_rfl

/-- C4: with misdetectionProb = 1 and a draw below 1, SenseEnded never reports
isPuOn true, even when the PU is actually active. -/
theorem senseEnded_full_misdetection (m : SpectrumManager) (a : Bool) (d : ℚ)
    (n : Nat) (hp : m.misdetectionProb = 1) (hd : d < 1) :
    ((SenseEnded m a d n).1).isPuOn = false := by
  rw [senseEnded_isPuOn]
  have hdec : decide (m.misdetectionProb ≤ d) = false := by
    rw [hp]; exact decide_eq_false (not_le.mpr hd)
  simp [detects, hdec]

theorem senseEnded_full_misdetection_witness :
    ((SenseEnded managerProbOne true (1/2) 1).1).isPuOn = false :=
  senseEnded_full_misdetection managerProbOne true (1/2) 1 rfl (by norm_num)

end SpectrumManager

namespace SpectrumManager

/-- C5: in every state reachable from either constructor by Start, SenseEnded,
HandoffEnded and TransmitEnded, at most one of isSensing and isSwitching is
true (equivalently, at least one of them is false); every operation preserves
this predicate. -/
theorem reachable_at_most_one_flag (m : SpectrumManager) (h : Reachable m) :
    m.isSensing = false ∨ m.isSwitching = false := by
  induction h with
  | ctorSimple id => exact Or.inl rfl
  | ctorParams id st tt m hm =>
      unfold ctorFull at hm
      split at hm
      · exact Option.noConfusion hm
      · cases hm
        exact Or.inl rfl
  | startStep m hr hsen hsw ih =>
      exact Or.inr hsw
  | senseStep m a d n hr hsen ih =>
      exact Or.inl (senseEnded_isSensing m a d n)
  | handoffStep m hr hsw ih =>
      exact Or.inr rfl
  | transmitStep m hr hsen hsw ih =>
      exact Or.inr hsw

theorem reachable_at_most_one_flag_witness :
    ((Start (ctorInterfaceOnly 0)).1).isSensing = false
      ∨ ((Start (ctorInterfaceOnly 0)).1).isSwitching = false :=
  reachable_at_most_one_flag (Start (ctorInterfaceOnly 0)).1
    (Reachable.startStep (ctorInterfaceOnly 0) (Reachable.ctorSimple 0) rfl rfl)

/-- C6: every step of the timer-expiry relation is one of
Sensing to HandingOff, Sensing to Transmitting, HandingOff to Sensing, or
Transmitting to Sensing; no other transition is reachable. -/
theorem step_only_cycle_transitions (m m2 : SpectrumManager) (h : Step m m2) :
    (cycleState m = CycleState.Sensing
        ∧ (cycleState m2 = CycleState.HandingOff
            ∨ cycleState m2 = CycleState.Transmitting))
    ∨ (cycleState m = CycleState.HandingOff ∧ cycleState m2 = CycleState.Sensing)
    ∨ (cycleState m = CycleState.Transmitting
        ∧ cycleState m2 = CycleState.Sensing) := by
  cases h with
  | senseFires a d n hs =>
      left
      refine ⟨by simp [cycleState, hs], ?_⟩
      rcases hd : detects m a d with _ | _
      · right
        simp [cycleState, senseEnded_isSensing, senseEnded_isSwitching, hd]
      · left
        simp [cycleState, senseEnded_isSensing, senseEnded_isSwitching, hd]
  | handoffFires hs hw =>
      right; left
      exact ⟨by simp [cycleState, hs, hw], by simp [cycleState, HandoffEnded]⟩
  | transmitFires hs hw =>
      right; right
      exact ⟨by simp [cycleState, hs, hw], by simp [cycleState, TransmitEnded]⟩

theorem step_only_cycle_transitions_witness :
    (cycleState (Start (ctorInterfaceOnly 0)).1 = CycleState.Sensing
        ∧ (cycleState (SenseEnded (Start (ctorInterfaceOnly 0)).1 false 0 1).1
              = CycleState.HandingOff
            ∨ cycleState (SenseEnded (Start (ctorInterfaceOnly 0)).1 false 0 1).1
              = CycleState.Transmitting))
    ∨ (cycleState (Start (ctorInterfaceOnly 0)).1 = CycleState.HandingOff
        ∧ cycleState (SenseEnded (Start (ctorInterfaceOnly 0)).1 false 0 1).1
            = CycleState.Sensing)
    ∨ (cycleState (Start (ctorInterfaceOnly 0)).1 = CycleState.Transmitting
        ∧ cycleState (SenseEnded (Start (ctorInterfaceOnly 0)).1 false 0 1).1
            = CycleState.Sensing) :=
  step_only_cycle_transitions (Start (ctorInterfaceOnly 0)).1
    (SenseEnded (Start (ctorInterfaceOnly 0)).1 false 0 1).1
    (Step.senseFires (Start (ctorInterfaceOnly 0)).1 false 0 1 rfl)

/-- C7: whenever SenseEnded detects the PU (isPuOn becomes true), its emitted
collaborator requests are exactly the repository write, then the
physical-layer channel switch, then the arming of the handoff timer — so the
repository write precedes both of the other two. -/
theorem senseEnded_repo_write_before_switch (m : SpectrumManager) (a : Bool)
    (d : ℚ) (n : Nat) (h : ((SenseEnded m a d n).1).isPuOn = true) :
    (SenseEnded m a d n).2
      = [SpectrumAction.repositoryWrite m.nodeId n,
         SpectrumAction.phySwitchChannel n,
         SpectrumAction.armHandoffTimer] := by
  rw [senseEnded_isPuOn] at h
  simp [SenseEnded, h]

theorem senseEnded_repo_write_before_switch_witness :
    (SenseEnded (ctorInterfaceOnly 0) true 0 3).2
      = [SpectrumAction.repositoryWrite (ctorInterfaceOnly 0).nodeId 3,
         SpectrumAction.phySwitchChannel 3,
         SpectrumAction.armHandoffTimer] :=
  senseEnded_repo_write_before_switch (ctorInterfaceOnly 0) true 0 3 (by decide)

/-- C8: a misdetection probability outside the unit interval is rejected by
SetPuModel, and a negative sense or transmit duration is rejected by the fully
parameterized constructor; neither invalid value is ever accepted into a
Manager state. -/
theorem invalid_config_rejected (m : SpectrumManager) (prob : ℚ) (id : Int)
    (st tt : ℚ) :
    ((prob < 0 ∨ 1 < prob) → SetPuModel m prob = none)
    ∧ ((st < 0 ∨ tt < 0) → ctorFull id st tt = none) := by
  constructor
  · intro h
    simp [SetPuModel, h]
  · intro h
    simp [ctorFull, h]

theorem invalid_config_rejected_witness :
    SetPuModel (ctorInterfaceOnly 0) 2 = none ∧ ctorFull 0 (-1) 1 = none :=
  ⟨(invalid_config_rejected (ctorInterfaceOnly 0) 2 0 0 0).1 (Or.inr (by norm_num)),
   (invalid_config_rejected (ctorInterfaceOnly 0) 2 0 (-1) 1).2 (Or.inl (by norm_num))⟩

end SpectrumManager

namespace SpectrumManager

/-- C9: during a window in which the PU is actually active, IsPuInterfering
always returns true when misdetectionProb is 0 (with a nonnegative draw) and
always returns false when misdetectionProb is 1 (with a draw below 1), and in
every case the call returns the Manager state unchanged (each call takes a
fresh draw as an explicit input). -/
theorem isPuInterfering_extremes_pure (m : SpectrumManager) (d : ℚ) :
    (m.misdetectionProb = 0 → 0 ≤ d → (IsPuInterfering m true d).1 = true)
    ∧ (m.misdetectionProb = 1 → d < 1 →
        ∀ a : Bool, (IsPuInterfering m a d).1 = false)
    ∧ (∀ a : Bool, (IsPuInterfering m a d).2 = m) := by
  refine ⟨?_, ?_, fun a => rfl⟩
  · intro hp hd
    have hdec : decide (m.misdetectionProb ≤ d) = true := by
      rw [hp]; exact decide_eq_true hd
    simp [IsPuInterfering, detects, hdec]
  · intro hp hd a
    have hdec : decide (m.misdetectionProb ≤ d) = false := by
      rw [hp]; exact decide_eq_false (not_le.mpr hd)
    simp [IsPuInterfering, detects, hdec]

theorem isPuInterfering_extremes_pure_witness :
    (IsPuInterfering (ctorInterfaceOnly 0) true (1/2)).1 = true
    ∧ (IsPuInterfering managerProbOne true (1/2)).1 = false :=
  ⟨(isPuInterfering_extremes_pure (ctorInterfaceOnly 0) (1/2)).1 rfl (by norm_num),
   (isPuInterfering_extremes_pure managerProbOne (1/2)).2.1 rfl (by norm_num) true⟩

end SpectrumManager

/-- The sense timer of a destroyed Manager is never pending: the destructor
disarms it, nothing can re-arm it, and firing it would require it pending. -/
theorem treach_destroyed_not_pending (s : TimerSys) (h : TReach s) :
    s.destroyed = true → s.sensePending = false := by
  induction h with
  | init => intro hd; exact absurd hd (by simp)
  | step s l s2 hr hst ih =>
      cases hst with
      | arm hlive => intro hd; exact absurd hd (by simp)
      | fire hp => intro hd; rfl
      | destructor => intro hd; rfl

/-- C10: from any reachable timer-subsystem state in which the Manager has
been destroyed, no step carries the senseFired label — SenseEnded is never
invoked after destruction — and the Manager stays destroyed, so the same
holds along every continuation. -/
theorem no_senseEnded_after_destroy (s : TimerSys) (l : TLabel) (s2 : TimerSys)
    (hr : TReach s) (hd : s.destroyed = true) (hst : TStep s l s2) :
    l ≠ TLabel.senseFired ∧ s2.destroyed = true := by
  cases hst with
  | arm hlive => exact absurd hd (by simp [hlive])
  | fire hp =>
      have := treach_destroyed_not_pending s hr hd
      rw [this] at hp
      exact absurd hp (by simp)
  | destructor => exact ⟨by simp, rfl⟩

theorem no_senseEnded_after_destroy_witness :
    TLabel.destructorRun ≠ TLabel.senseFired
    ∧ ({ destroyed := true, sensePending := false } : TimerSys).destroyed = true :=
  no_senseEnded_after_destroy
    { destroyed := true, sensePending := false } TLabel.destructorRun
    { destroyed := true, sensePending := false }
    (TReach.step { destroyed := false, sensePending := false }
      TLabel.destructorRun { destroyed := true, sensePending := false }
      TReach.init (TStep.destructor { destroyed := false, sensePending := false }))
    rfl
    (TStep.destructor { destroyed := true, sensePending := false })
